import Mathlib

/-!
Verification of the SOLIDserver allocation engine (terraform-provider-solidserver).

A shallow embedding of the creation/reservation control flow of
`resourceipsubnetCreate` (src/unnamed/part_003), `resourceip6subnetCreate`
(src/unnamed/part_002), `resourcevlanCreate` and `resourcevlanUpdate`
(src/solidserver/resource_vlan.go), together with the gateway offset
arithmetic they perform.

The external inventory (the SOLIDserver REST API) is modelled as an oracle
mapping each candidate to either a transport error or a decoded response
(status code plus decoded JSON body).  The address-codec helpers
(`prefixlengthtosize`, `prefix6lengthtosize`, `abs`, `longtoip`) are called
from the embedded code but are not part of the provided sources; they are
modelled from the specification, as indicated on each definition.
-/

/-- One decoded JSON object of a response body: the fields the creation code
inspects (`ret_oid` and `errmsg`), absent keys being `none`. -/
structure RespEntry where
  retOid : Option String
  errmsg : Option String
deriving DecidableEq, Repr

/-- A decoded inventory response: HTTP status code and decoded body array. -/
structure ApiResponse where
  statusCode : Nat
  body : List RespEntry
deriving DecidableEq, Repr

/-- Success test applied to a reservation response, mirroring
`if (resp.StatusCode == 200 || resp.StatusCode == 201) && len(buf) > 0`
followed by `buf[0]["ret_oid"].(string)` with the comma-ok form
(part_003:219-230, part_002:223-233, resource_vlan.go:140-145). -/
def respSuccessOid (resp : ApiResponse) : Option String :=
  if (resp.statusCode == 200 || resp.statusCode == 201) && !resp.body.isEmpty then
    match resp.body with
    | [] => none
    | e :: _ => e.retOid
  else
    none

/-- Observable events of a creation call: the free-space search, the random
pre-attempt delay, a reservation request, an edit request. -/
inductive Ev where
  | findFreeCall : Ev
  | sleepMs : Nat → Ev
  | reserveCall : String → Ev
  | editCall : Ev
deriving DecidableEq, Repr

/-- Event test: is this a reservation request. -/
def Ev.isReserve : Ev → Bool
  | .reserveCall _ => true
  | _ => false

/-- Event test: is this a random delay. -/
def Ev.isSleep : Ev → Bool
  | .sleepMs _ => true
  | _ => false

/-- Modelled from the spec: the Address Codec helper `prefixlengthtosize`
(called at part_003:193 but defined outside src/), `prefixToSize(l, 32) =
2^(32-l)`. -/
def prefixlengthtosize (l : Nat) : Nat := 2 ^ (32 - l)

/-- Modelled from the spec: the Address Codec helper `prefix6lengthtosize`
(called at part_002:196 but defined outside src/), `prefixToSize(l, 128) =
2^(128-l)` as an arbitrary-precision integer. -/
def prefix6lengthtosize (l : Nat) : Int := 2 ^ (128 - l)

/-- Modelled from the spec: the helper `abs` (called at part_003:193 and
part_002:197 but defined outside src/), the absolute value `|offset|`. -/
def absInt (x : Int) : Int := if x < 0 then -x else x

/-- Go conversion `uint32(x)` of a (64-bit) signed value: truncation to the
low 32 bits, i.e. reduction modulo `2^32`. -/
def uint32 (x : Int) : Nat := (x % (2 ^ 32 : Int)).toNat

/-- Modelled from the spec: the Address Codec helper `longtoip` (called at
part_003:191-193 but defined outside src/), integer to dotted-quad IPv4
notation. -/
def longtoip (n : Nat) : String :=
  toString (n / 2 ^ 24 % 256) ++ "." ++ toString (n / 2 ^ 16 % 256) ++ "." ++
    toString (n / 2 ^ 8 % 256) ++ "." ++ toString (n % 256)

/-- IPv4 gateway computation of `resourceipsubnetCreate` (part_003:189-194):
`longtoip(iptolong(hexiptoip(addr)) + uint32(goffset))` for a positive
offset, and `longtoip(iptolong(hexiptoip(addr)) +
uint32(prefixlengthtosize(prefix_size)) - uint32(abs(goffset)) - 1)` for a
negative one, all in wrapping 32-bit unsigned arithmetic.  Addresses are
kept in integer form (the codec is lossless). -/
def ipv4GatewayLong (subnetStart : Nat) (prefixSize : Nat) (goffset : Int) : Nat :=
  if 0 < goffset then
    (subnetStart + uint32 goffset) % 2 ^ 32
  else
    (((subnetStart : Int) + (uint32 ((prefixlengthtosize prefixSize : Nat) : Int) : Int) -
        (uint32 (absInt goffset) : Int) - 1) % (2 ^ 32 : Int)).toNat

/-- IPv6 gateway computation of `resourceip6subnetCreate` (part_002:189-199):
`bigStartAddr + bigOffset` for a positive offset, and
`(bigStartAddr + prefix6lengthtosize(prefix_size)) - abs(goffset)` for a
negative one, in arbitrary-precision (`big.Int`) arithmetic. -/
def ip6Gateway (subnetStart : Int) (prefixSize : Nat) (goffset : Int) : Int :=
  if 0 < goffset then
    subnetStart + goffset
  else
    (subnetStart + prefix6lengthtosize prefixSize) - absInt goffset

/-- Result of an IPv4 subnet creation: entity id plus the recorded gateway
(`d.SetId(oid)`, `d.Set("gateway", gateway)`), or an error diagnostic. -/
inductive IpCreateResult where
  | ok : String → Option Nat → IpCreateResult
  | err : String → IpCreateResult
deriving DecidableEq, Repr

/-- Entity id reported on success, `none` on any error outcome. -/
def IpCreateResult.successOid : IpCreateResult → Option String
  | .ok oid _ => some oid
  | .err _ => none

/-- Result of an IPv6 subnet creation (gateway is arbitrary precision). -/
inductive Ip6CreateResult where
  | ok : String → Option Int → Ip6CreateResult
  | err : String → Ip6CreateResult
deriving DecidableEq, Repr

/-- Entity id reported on success, `none` on any error outcome. -/
def Ip6CreateResult.successOid : Ip6CreateResult → Option String
  | .ok oid _ => some oid
  | .err _ => none

/-- The reservation loop of `resourceipsubnetCreate` (part_003:158-249): per
candidate, compute the gateway when an offset is requested, sleep
`rand.Intn(1000)` milliseconds, issue the reservation request; stop with the
entity id on an unambiguous success, abort on a transport error, advance to
the next candidate otherwise; report the exhaustion diagnostic once the list
is spent.  `rng i` models the i-th draw of the random generator, `inv`
models the inventory answering a reservation request for a candidate
address. -/
def ipsubnetLoop (prefixSize : Nat) (goffset : Int) (rng : Nat → Nat)
    (inv : Nat → Except String ApiResponse) :
    List Nat → Nat → IpCreateResult × List Ev
  | [], _ => (.err "Unable to create IP subnet: unable to find a suitable prefix", [])
  | addr :: rest, i =>
    let gw : Option Nat := if goffset == 0 then none else some (ipv4GatewayLong addr prefixSize goffset)
    let delay := rng i % 1000
    match inv addr with
    | .error e => (.err e, [.sleepMs delay, .reserveCall (longtoip addr)])
    | .ok resp =>
      match respSuccessOid resp with
      | some oid => (.ok oid gw, [.sleepMs delay, .reserveCall (longtoip addr)])
      | none =>
        let r := ipsubnetLoop prefixSize goffset rng inv rest (i + 1)
        (r.1, .sleepMs delay :: .reserveCall (longtoip addr) :: r.2)

/-- The reservation loop of `resourceip6subnetCreate` (part_002:158-252),
identical control flow with 128-bit candidates and big-integer gateway
arithmetic. -/
def ip6subnetLoop (prefixSize : Nat) (goffset : Int) (rng : Nat → Nat)
    (inv : Int → Except String ApiResponse) :
    List Int → Nat → Ip6CreateResult × List Ev
  | [], _ => (.err "Unable to create IPv6 subnet: unable to find a suitable prefix", [])
  | addr :: rest, i =>
    let gw : Option Int := if goffset == 0 then none else some (ip6Gateway addr prefixSize goffset)
    let delay := rng i % 1000
    match inv addr with
    | .error e => (.err e, [.sleepMs delay, .reserveCall (toString addr)])
    | .ok resp =>
      match respSuccessOid resp with
      | some oid => (.ok oid gw, [.sleepMs delay, .reserveCall (toString addr)])
      | none =>
        let r := ip6subnetLoop prefixSize goffset rng inv rest (i + 1)
        (r.1, .sleepMs delay :: .reserveCall (toString addr) :: r.2)

/-- Entry phase plus loop of `resourceipsubnetCreate` (part_003:118-250):
resolve the space, resolve the parent block when one is named, otherwise
reject a terminal block creation before any search; then run the candidate
search and the reservation loop.  `siteLookup`, `blockLookup` and `finder`
model `ipsiteidbyname`, `ipsubnetinfobyname` and `ipsubnetfindbysize`. -/
def resourceipsubnetCreate (blockName : String) (terminal : Bool)
    (prefixSize : Nat) (goffset : Int)
    (siteLookup : Except String String) (blockLookup : Except String String)
    (finder : Except String (List Nat)) (rng : Nat → Nat)
    (inv : Nat → Except String ApiResponse) : IpCreateResult × List Ev :=
  match siteLookup with
  | .error e => (.err e, [])
  | .ok _siteID =>
    if 0 < blockName.length then
      match blockLookup with
      | .error e => (.err e, [])
      | .ok _blockID =>
        match finder with
        | .error e => (.err e, [.findFreeCall])
        | .ok cands =>
          let r := ipsubnetLoop prefixSize goffset rng inv cands 0
          (r.1, .findFreeCall :: r.2)
    else
      if terminal then
        (.err "Cannot create a terminal IP block subnet", [])
      else
        match finder with
        | .error e => (.err e, [.findFreeCall])
        | .ok cands =>
          let r := ipsubnetLoop prefixSize goffset rng inv cands 0
          (r.1, .findFreeCall :: r.2)

/-- Entry phase plus loop of `resourceip6subnetCreate` (part_002:119-253),
identical control flow to the IPv4 version. -/
def resourceip6subnetCreate (blockName : String) (terminal : Bool)
    (prefixSize : Nat) (goffset : Int)
    (siteLookup : Except String String) (blockLookup : Except String String)
    (finder : Except String (List Int)) (rng : Nat → Nat)
    (inv : Int → Except String ApiResponse) : Ip6CreateResult × List Ev :=
  match siteLookup with
  | .error e => (.err e, [])
  | .ok _siteID =>
    if 0 < blockName.length then
      match blockLookup with
      | .error e => (.err e, [])
      | .ok _blockID =>
        match finder with
        | .error e => (.err e, [.findFreeCall])
        | .ok cands =>
          let r := ip6subnetLoop prefixSize goffset rng inv cands 0
          (r.1, .findFreeCall :: r.2)
    else
      if terminal then
        (.err "Cannot create a terminal IPv6 block subnet", [])
      else
        match finder with
        | .error e => (.err e, [.findFreeCall])
        | .ok cands =>
          let r := ip6subnetLoop prefixSize goffset rng inv cands 0
          (r.1, .findFreeCall :: r.2)

/-- A terraform attribute value as handed back by `d.Get`: a dynamically
typed value whose static type is fixed by the resource schema. -/
inductive AttrVal where
  | str : String → AttrVal
  | int : Int → AttrVal
  | bool : Bool → AttrVal
deriving DecidableEq, Repr

/-- Go type assertion `v.(string)` on such a value: yields the string, or
panics (modelled as an error) when the dynamic type is not `string`. -/
def AttrVal.asString : AttrVal → Except String String
  | .str s => .ok s
  | .int _ => .error "interface conversion: interface holds int, not string"
  | .bool _ => .error "interface conversion: interface holds bool, not string"

/-- Outcome of a VLAN create or update: success with the entity id, an error
return, or a Go runtime panic. -/
inductive VlanResult where
  | ok : String → VlanResult
  | err : String → VlanResult
  | panicked : String → VlanResult
deriving DecidableEq, Repr

/-- The reservation loop of `resourcevlanCreate` (resource_vlan.go:122-156):
per candidate identifier, issue the reservation request directly (the VLAN
variant has no pre-attempt delay); stop with the entity id on an unambiguous
success, abort on a transport error, advance otherwise; report the terminal
diagnostic once the list is spent. -/
def vlanLoop (inv : String → Except String ApiResponse) :
    List String → VlanResult × List Ev
  | [] => (.err "Unable to create vlan", [])
  | vid :: rest =>
    match inv vid with
    | .error e => (.err e, [.reserveCall vid])
    | .ok resp =>
      match respSuccessOid resp with
      | some oid => (.ok oid, [.reserveCall vid])
      | none =>
        let r := vlanLoop inv rest
        (r.1, .reserveCall vid :: r.2)

/-- Entry phase plus loop of `resourcevlanCreate` (resource_vlan.go:104-157).
The schema declares `request_id` with `Type: schema.TypeInt` (line 30-36),
so `d.Get("request_id")` yields an `int`; when it is positive the code
builds the singleton candidate list with `d.Get("request_id").(string)`, a
string type assertion on that `int` value.  `finder` models
`vlanidfindfree`. -/
def resourcevlanCreate (requestId : Int) (finder : Except String (List String))
    (inv : String → Except String ApiResponse) : VlanResult × List Ev :=
  if 0 < requestId then
    match (AttrVal.int requestId).asString with
    | .error e => (.panicked e, [])
    | .ok s => vlanLoop inv [s]
  else
    match finder with
    | .error e => (.err e, [.findFreeCall])
    | .ok ids =>
      let r := vlanLoop inv ids
      (r.1, .findFreeCall :: r.2)

/-- The body of `resourcevlanUpdate` (resource_vlan.go:159-193): the request
parameters include `d.Get("vlan_id").(string)`, a string type assertion on
the `vlan_id` attribute that the schema declares with `Type: schema.TypeInt`
(line 37-42); the parameters are built before the single edit request is
sent, and the edit succeeds exactly when the inventory answers 200/201 with
a `ret_oid`. -/
def resourcevlanUpdate (vlanId : Int)
    (inv : Except String ApiResponse) : VlanResult × List Ev :=
  match (AttrVal.int vlanId).asString with
  | .error e => (.panicked e, [])
  | .ok _vid =>
    match inv with
    | .error e => (.err e, [.editCall])
    | .ok resp =>
      match respSuccessOid resp with
      | some oid => (.ok oid, [.editCall])
      | none => (.err "Unable to update vlan", [.editCall])

/-- A reservation attempt that the engine treats as a conflict: the
transport call returned a response, but not an unambiguous success. -/
def attemptConflicts (r : Except String ApiResponse) : Prop :=
  ∃ resp, r = .ok resp ∧ respSuccessOid resp = none

/-- A reservation attempt that unambiguously succeeded, returning the
entity id `oid`: the transport call yielded a response with status 200 or
201 and a non-empty body whose first object carries `ret_oid = oid`. -/
def reserveSucceedsWith (r : Except String ApiResponse) (oid : String) : Prop :=
  ∃ resp e rest, r = .ok resp ∧ resp.body = e :: rest ∧
    (resp.statusCode = 200 ∨ resp.statusCode = 201) ∧ e.retOid = some oid

/-- Trace shape of the subnet loops: a delay immediately before every
reservation request. -/
def delayedPairs : List (Nat × String) → List Ev
  | [] => []
  | q :: rest => .sleepMs q.1 :: .reserveCall q.2 :: delayedPairs rest

theorem respSuccessOid_eq_some_iff (resp : ApiResponse) (oid : String) :
    respSuccessOid resp = some oid ↔
      (resp.statusCode = 200 ∨ resp.statusCode = 201) ∧
        ∃ e rest, resp.body = e :: rest ∧ e.retOid = some oid := by
  rcases resp with ⟨st, body⟩
  cases body with
  | nil => simp [respSuccessOid]
  | cons e rest =>
    by_cases h200 : st = 200
    · simp [respSuccessOid, h200]
    · by_cases h201 : st = 201
      · simp [respSuccessOid, h200, h201]
      · simp [respSuccessOid, h200, h201]

theorem reserveSucceedsWith_iff (r : Except String ApiResponse) (oid : String) :
    reserveSucceedsWith r oid ↔ ∃ resp, r = .ok resp ∧ respSuccessOid resp = some oid := by
  constructor
  · rintro ⟨resp, e, rest, hr, hb, hst, hoid⟩
    exact ⟨resp, hr, (respSuccessOid_eq_some_iff resp oid).mpr ⟨hst, e, rest, hb, hoid⟩⟩
  · rintro ⟨resp, hr, hso⟩
    obtain ⟨hst, e, rest, hb, hoid⟩ := (respSuccessOid_eq_some_iff resp oid).mp hso
    exact ⟨resp, e, rest, hr, hb, hst, hoid⟩

theorem ipsubnetLoop_exhaust (p : Nat) (g : Int) (rng : Nat → Nat)
    (inv : Nat → Except String ApiResponse) (cands : List Nat) :
    ∀ i : Nat, (∀ a ∈ cands, attemptConflicts (inv a)) →
      (ipsubnetLoop p g rng inv cands i).1 =
          .err "Unable to create IP subnet: unable to find a suitable prefix" ∧
        ((ipsubnetLoop p g rng inv cands i).2.filter Ev.isReserve).length = cands.length := by
  induction cands with
  | nil => intro i _; simp [ipsubnetLoop]
  | cons a rest ih =>
    intro i hc
    obtain ⟨resp, hra, hnone⟩ := hc a (by simp)
    have ihr := ih (i + 1) (fun b hb => hc b (by simp [hb]))
    simp only [ipsubnetLoop, hra, hnone]
    refine ⟨ihr.1, ?_⟩
    simp [Ev.isReserve, List.filter, ihr.2]

theorem vlanLoop_exhaust (inv : String → Except String ApiResponse) (vids : List String) :
    (∀ v ∈ vids, attemptConflicts (inv v)) →
      (vlanLoop inv vids).1 = .err "Unable to create vlan" ∧
        ((vlanLoop inv vids).2.filter Ev.isReserve).length = vids.length := by
  induction vids with
  | nil => intro _; simp [vlanLoop]
  | cons v rest ih =>
    intro hc
    obtain ⟨resp, hrv, hnone⟩ := hc v (by simp)
    have ihr := ih (fun b hb => hc b (by simp [hb]))
    simp only [vlanLoop, hrv, hnone]
    refine ⟨ihr.1, ?_⟩
    simp [Ev.isReserve, List.filter, ihr.2]

theorem ipsubnetLoop_transport (p : Nat) (g : Int) (rng : Nat → Nat)
    (inv : Nat → Except String ApiResponse) (c : Nat) (e : String) (post : List Nat)
    (hce : inv c = .error e) :
    ∀ (pre : List Nat) (i : Nat), (∀ x ∈ pre, attemptConflicts (inv x)) →
      (ipsubnetLoop p g rng inv (pre ++ c :: post) i).1 = .err e ∧
        ((ipsubnetLoop p g rng inv (pre ++ c :: post) i).2.filter Ev.isReserve).length =
          pre.length + 1 := by
  intro pre
  induction pre with
  | nil =>
    intro i _
    simp only [List.nil_append, ipsubnetLoop, hce]
    simp [Ev.isReserve, List.filter]
  | cons a rest ih =>
    intro i hc
    obtain ⟨resp, hra, hnone⟩ := hc a (by simp)
    have ihr := ih (i + 1) (fun b hb => hc b (by simp [hb]))
    simp only [List.cons_append, ipsubnetLoop, hra, hnone]
    refine ⟨ihr.1, ?_⟩
    simp [Ev.isReserve, List.filter, ihr.2]

theorem vlanLoop_transport (inv : String → Except String ApiResponse)
    (c : String) (e : String) (post : List String) (hce : inv c = .error e) :
    ∀ pre : List String, (∀ x ∈ pre, attemptConflicts (inv x)) →
      (vlanLoop inv (pre ++ c :: post)).1 = .err e ∧
        ((vlanLoop inv (pre ++ c :: post)).2.filter Ev.isReserve).length = pre.length + 1 := by
  intro pre
  induction pre with
  | nil =>
    intro _
    simp only [List.nil_append, vlanLoop, hce]
    simp [Ev.isReserve, List.filter]
  | cons a rest ih =>
    intro hc
    obtain ⟨resp, hra, hnone⟩ := hc a (by simp)
    have ihr := ih (fun b hb => hc b (by simp [hb]))
    simp only [List.cons_append, vlanLoop, hra, hnone]
    refine ⟨ihr.1, ?_⟩
    simp [Ev.isReserve, List.filter, ihr.2]

theorem ipsubnetLoop_success_iff (p : Nat) (g : Int) (rng : Nat → Nat)
    (inv : Nat → Except String ApiResponse) (cands : List Nat) :
    ∀ (i : Nat) (oid : String),
      (ipsubnetLoop p g rng inv cands i).1.successOid = some oid ↔
        ∃ pre a post, cands = pre ++ a :: post ∧
          (∀ x ∈ pre, attemptConflicts (inv x)) ∧ reserveSucceedsWith (inv a) oid := by
  induction cands with
  | nil =>
    intro i oid
    simp [ipsubnetLoop, IpCreateResult.successOid]
  | cons a rest ih =>
    intro i oid
    constructor
    · intro hs
      cases hra : inv a with
      | error e =>
        simp only [ipsubnetLoop, hra, IpCreateResult.successOid] at hs
        exact Option.noConfusion hs
      | ok resp =>
        cases hso : respSuccessOid resp with
        | some o =>
          simp only [ipsubnetLoop, hra, hso, IpCreateResult.successOid,
            Option.some.injEq] at hs
          rw [hs] at hso
          refine ⟨[], a, rest, rfl, by simp, ?_⟩
          exact (reserveSucceedsWith_iff (inv a) oid).mpr ⟨resp, hra, hso⟩
        | none =>
          simp only [ipsubnetLoop, hra, hso] at hs
          obtain ⟨pre, b, post, hdec, hconf, hsucc⟩ := (ih (i + 1) oid).mp hs
          refine ⟨a :: pre, b, post, by rw [hdec, List.cons_append], ?_, hsucc⟩
          intro x hx
          rcases List.mem_cons.mp hx with hxa | hxp
          · subst hxa; exact ⟨resp, hra, hso⟩
          · exact hconf x hxp
    · rintro ⟨pre, b, post, hdec, hconf, hsucc⟩
      cases pre with
      | nil =>
        injection hdec with h1 h2
        subst h1; subst h2
        obtain ⟨resp, hra, hso⟩ := (reserveSucceedsWith_iff (inv a) oid).mp hsucc
        simp only [ipsubnetLoop, hra, hso, IpCreateResult.successOid]
      | cons x pre2 =>
        injection hdec with h1 h2
        subst h1
        obtain ⟨resp, hra, hso⟩ := hconf a (by simp)
        simp only [ipsubnetLoop, hra, hso]
        exact (ih (i + 1) oid).mpr ⟨pre2, b, post, h2, fun y hy => hconf y (by simp [hy]), hsucc⟩

theorem ip6subnetLoop_success_iff (p : Nat) (g : Int) (rng : Nat → Nat)
    (inv : Int → Except String ApiResponse) (cands : List Int) :
    ∀ (i : Nat) (oid : String),
      (ip6subnetLoop p g rng inv cands i).1.successOid = some oid ↔
        ∃ pre a post, cands = pre ++ a :: post ∧
          (∀ x ∈ pre, attemptConflicts (inv x)) ∧ reserveSucceedsWith (inv a) oid := by
  induction cands with
  | nil =>
    intro i oid
    simp [ip6subnetLoop, Ip6CreateResult.successOid]
  | cons a rest ih =>
    intro i oid
    constructor
    · intro hs
      cases hra : inv a with
      | error e =>
        simp only [ip6subnetLoop, hra, Ip6CreateResult.successOid] at hs
        exact Option.noConfusion hs
      | ok resp =>
        cases hso : respSuccessOid resp with
        | some o =>
          simp only [ip6subnetLoop, hra, hso, Ip6CreateResult.successOid,
            Option.some.injEq] at hs
          rw [hs] at hso
          refine ⟨[], a, rest, rfl, by simp, ?_⟩
          exact (reserveSucceedsWith_iff (inv a) oid).mpr ⟨resp, hra, hso⟩
        | none =>
          simp only [ip6subnetLoop, hra, hso] at hs
          obtain ⟨pre, b, post, hdec, hconf, hsucc⟩ := (ih (i + 1) oid).mp hs
          refine ⟨a :: pre, b, post, by rw [hdec, List.cons_append], ?_, hsucc⟩
          intro x hx
          rcases List.mem_cons.mp hx with hxa | hxp
          · subst hxa; exact ⟨resp, hra, hso⟩
          · exact hconf x hxp
    · rintro ⟨pre, b, post, hdec, hconf, hsucc⟩
      cases pre with
      | nil =>
        injection hdec with h1 h2
        subst h1; subst h2
        obtain ⟨resp, hra, hso⟩ := (reserveSucceedsWith_iff (inv a) oid).mp hsucc
        simp only [ip6subnetLoop, hra, hso, Ip6CreateResult.successOid]
      | cons x pre2 =>
        injection hdec with h1 h2
        subst h1
        obtain ⟨resp, hra, hso⟩ := hconf a (by simp)
        simp only [ip6subnetLoop, hra, hso]
        exact (ih (i + 1) oid).mpr ⟨pre2, b, post, h2, fun y hy => hconf y (by simp [hy]), hsucc⟩

theorem ipsubnetLoop_trace_shape (p : Nat) (g : Int) (rng : Nat → Nat)
    (inv : Nat → Except String ApiResponse) (cands : List Nat) :
    ∀ i : Nat, ∃ prs : List (Nat × String),
      (ipsubnetLoop p g rng inv cands i).2 = delayedPairs prs ∧ ∀ q ∈ prs, q.1 < 1000 := by
  induction cands with
  | nil => intro i; exact ⟨[], rfl, by simp⟩
  | cons a rest ih =>
    intro i
    have hlt : rng i % 1000 < 1000 := Nat.mod_lt _ (by norm_num)
    cases hra : inv a with
    | error e =>
      refine ⟨[(rng i % 1000, longtoip a)], ?_, ?_⟩
      · simp [ipsubnetLoop, hra, delayedPairs]
      · intro q hq; simp at hq; simp [hq, hlt]
    | ok resp =>
      cases hso : respSuccessOid resp with
      | some o =>
        refine ⟨[(rng i % 1000, longtoip a)], ?_, ?_⟩
        · simp [ipsubnetLoop, hra, hso, delayedPairs]
        · intro q hq; simp at hq; simp [hq, hlt]
      | none =>
        obtain ⟨prs, hp, hb⟩ := ih (i + 1)
        refine ⟨(rng i % 1000, longtoip a) :: prs, ?_, ?_⟩
        · simp [ipsubnetLoop, hra, hso, delayedPairs, hp]
        · intro q hq
          rcases List.mem_cons.mp hq with hq1 | hq2
          · simp [hq1, hlt]
          · exact hb q hq2

theorem ip6subnetLoop_trace_shape (p : Nat) (g : Int) (rng : Nat → Nat)
    (inv : Int → Except String ApiResponse) (cands : List Int) :
    ∀ i : Nat, ∃ prs : List (Nat × String),
      (ip6subnetLoop p g rng inv cands i).2 = delayedPairs prs ∧ ∀ q ∈ prs, q.1 < 1000 := by
  induction cands with
  | nil => intro i; exact ⟨[], rfl, by simp⟩
  | cons a rest ih =>
    intro i
    have hlt : rng i % 1000 < 1000 := Nat.mod_lt _ (by norm_num)
    cases hra : inv a with
    | error e =>
      refine ⟨[(rng i % 1000, toString a)], ?_, ?_⟩
      · simp [ip6subnetLoop, hra, delayedPairs]
      · intro q hq; simp at hq; simp [hq, hlt]
    | ok resp =>
      cases hso : respSuccessOid resp with
      | some o =>
        refine ⟨[(rng i % 1000, toString a)], ?_, ?_⟩
        · simp [ip6subnetLoop, hra, hso, delayedPairs]
        · intro q hq; simp at hq; simp [hq, hlt]
      | none =>
        obtain ⟨prs, hp, hb⟩ := ih (i + 1)
        refine ⟨(rng i % 1000, toString a) :: prs, ?_, ?_⟩
        · simp [ip6subnetLoop, hra, hso, delayedPairs, hp]
        · intro q hq
          rcases List.mem_cons.mp hq with hq1 | hq2
          · simp [hq1, hlt]
          · exact hb q hq2

theorem vlanLoop_no_sleep (inv : String → Except String ApiResponse) (vids : List String) :
    ((vlanLoop inv vids).2.filter Ev.isSleep) = [] := by
  induction vids with
  | nil => simp [vlanLoop]
  | cons v rest ih =>
    cases hrv : inv v with
    | error e => simp [vlanLoop, hrv, Ev.isSleep, List.filter]
    | ok resp =>
      cases hso : respSuccessOid resp with
      | some o => simp [vlanLoop, hrv, hso, Ev.isSleep, List.filter]
      | none => simp [vlanLoop, hrv, hso, Ev.isSleep, List.filter, ih]

theorem resourcevlanCreate_no_sleep (requestId : Int)
    (finder : Except String (List String)) (inv : String → Except String ApiResponse) :
    ((resourcevlanCreate requestId finder inv).2.filter Ev.isSleep) = [] := by
  by_cases h : 0 < requestId
  · simp [resourcevlanCreate, h, AttrVal.asString]
  · cases hf : finder with
    | error e => simp [resourcevlanCreate, h, hf, Ev.isSleep, List.filter]
    | ok ids =>
      simp [resourcevlanCreate, h, hf, Ev.isSleep, List.filter, vlanLoop_no_sleep inv ids]

theorem ipv4GatewayLong_neg (s p : Nat) (g : Int) (hg : g < 0) :
    ipv4GatewayLong s p g =
      (((s : Int) + (prefixlengthtosize p : Int) + g - 1) % (2 ^ 32 : Int)).toNat := by
  have h0 : ¬ 0 < g := by omega
  have habs : absInt g = -g := if_pos hg
  unfold ipv4GatewayLong
  rw [if_neg h0, habs]
  unfold uint32
  have hsz : (0 : Int) ≤ ((prefixlengthtosize p : Nat) : Int) % (2 ^ 32 : Int) :=
    Int.emod_nonneg _ (by norm_num)
  have hng : (0 : Int) ≤ (-g) % (2 ^ 32 : Int) := Int.emod_nonneg _ (by norm_num)
  rw [Int.toNat_of_nonneg hsz, Int.toNat_of_nonneg hng]
  congr 1
  generalize ((prefixlengthtosize p : Nat) : Int) = B
  have h32 : (2 : Int) ^ 32 = 4294967296 := by norm_num
  rw [h32]
  omega

theorem ipsubnetLoop_first_success (p : Nat) (g : Int) (rng : Nat → Nat)
    (inv : Nat → Except String ApiResponse) (s : Nat) (rest : List Nat)
    (resp : ApiResponse) (oid : String)
    (hs : inv s = .ok resp) (hoid : respSuccessOid resp = some oid) (hg : g ≠ 0) :
    (ipsubnetLoop p g rng inv (s :: rest) 0).1 = .ok oid (some (ipv4GatewayLong s p g)) := by
  simp only [ipsubnetLoop, hs, hoid]
  simp [hg]

theorem ip6subnetLoop_first_success (p : Nat) (g : Int) (rng : Nat → Nat)
    (inv : Int → Except String ApiResponse) (s : Int) (rest : List Int)
    (resp : ApiResponse) (oid : String)
    (hs : inv s = .ok resp) (hoid : respSuccessOid resp = some oid) (hg : g ≠ 0) :
    (ip6subnetLoop p g rng inv (s :: rest) 0).1 = .ok oid (some (ip6Gateway s p g)) := by
  simp only [ip6subnetLoop, hs, hoid]
  simp [hg]

/-- Claim C1, counterexample: for the reserved block 10.0.0.0 (integer
167772160) with prefix 24 (size 256) and gateway_offset -1, the gateway the
code records on the created subnet is 10.0.0.254 (integer 167772414), not
the 10.0.0.255 (= blockStart + blockSize - 1 = 167772415) the claim
predicts: the IPv4 computation subtracts one extra unit. -/
theorem C1_counterexample :
    (ipsubnetLoop 24 (-1) (fun _ => 0)
        (fun _ => .ok ⟨200, [⟨some "4242", none⟩]⟩) [167772160] 0).1 =
      .ok "4242" (some 167772414) ∧
    longtoip 167772414 = "10.0.0.254" ∧
    (167772414 : Nat) ≠ 167772160 + prefixlengthtosize 24 - (-1 : Int).natAbs ∧
    longtoip (167772160 + prefixlengthtosize 24 - (-1 : Int).natAbs) = "10.0.0.255" :=
  ⟨rfl, by decide, by decide, by decide⟩

/-- Claim C1 (amended): for every IPv4 subnet creation with a negative
gateway_offset g whose first candidate (block start s) is reserved
successfully, the gateway recorded on the created subnet equals
(s + blockSize + g - 1) mod 2^32, i.e. blockStart + blockSize - abs(g) - 1 —
one less than the claimed blockStart + blockSize - abs(g); for block start
10.0.0.0 of size 256 and offset -1 this is 10.0.0.254. -/
theorem C1_gateway_negative_offset (s p : Nat) (g : Int) (rng : Nat → Nat)
    (inv : Nat → Except String ApiResponse) (resp : ApiResponse) (oid : String)
    (hg : g < 0) (hs : inv s = .ok resp) (hoid : respSuccessOid resp = some oid) :
    (ipsubnetLoop p g rng inv [s] 0).1 =
      .ok oid (some ((((s : Int) + (prefixlengthtosize p : Int) + g - 1) %
        (2 ^ 32 : Int)).toNat)) := by
  rw [ipsubnetLoop_first_success p g rng inv s [] resp oid hs hoid (by omega)]
  rw [ipv4GatewayLong_neg s p g hg]

/-- Witness for C1_gateway_negative_offset at block start 10.0.0.0, prefix
24, offset -1: the recorded gateway is the formula value 167772414. -/
theorem C1_gateway_negative_offset_witness :
    (ipsubnetLoop 24 (-1) (fun _ => 0)
        (fun _ => .ok ⟨200, [⟨some "4242", none⟩]⟩) [167772160] 0).1 =
      .ok "4242" (some ((((167772160 : Nat) : Int) + (prefixlengthtosize 24 : Int) +
        (-1) - 1) % (2 ^ 32 : Int)).toNat) :=
  C1_gateway_negative_offset 167772160 24 (-1) (fun _ => 0)
    (fun _ => .ok ⟨200, [⟨some "4242", none⟩]⟩) ⟨200, [⟨some "4242", none⟩]⟩ "4242"
    (by decide) rfl rfl

/-- Claim C2, counterexample: for the /24 block at 10.0.0.0 the claim
requires offset 256 and offset -300 to fail with OffsetOutOfRange; instead
the creation succeeds recording gateway 10.0.1.0 (167772416, outside the
block range, whose last address is 167772415), and at block start 0.0.0.0
offset -300 silently wraps modulo 2^32 to 4294967251 instead of being
detected as an overflow. -/
theorem C2_counterexample :
    (resourceipsubnetCreate "blk" true 24 256 (.ok "site1") (.ok "blk1")
        (.ok [167772160]) (fun _ => 0)
        (fun _ => .ok ⟨200, [⟨some "4242", none⟩]⟩)).1 =
      .ok "4242" (some 167772416) ∧
    167772160 + prefixlengthtosize 24 - 1 < 167772416 ∧
    ipv4GatewayLong 0 24 (-300) = 4294967251 :=
  ⟨rfl, by decide, by decide⟩

/-- Claim C2 (amended): gateway offset resolution performs no range check
at all — whenever a reservation attempt succeeds, both the IPv4 and the
IPv6 creation report success recording the computed gateway
(ipv4GatewayLong, reduced modulo 2^32, respectively ip6Gateway, unreduced),
whether or not that address lies inside the block; no OffsetOutOfRange
error path exists. -/
theorem C2_no_range_check (s p : Nat) (g : Int) (rng : Nat → Nat)
    (inv : Nat → Except String ApiResponse) (resp : ApiResponse) (oid : String)
    (s6 : Int) (p6 : Nat) (g6 : Int) (rng6 : Nat → Nat)
    (inv6 : Int → Except String ApiResponse) (resp6 : ApiResponse) (oid6 : String)
    (hg : g ≠ 0) (hs : inv s = .ok resp) (hoid : respSuccessOid resp = some oid)
    (hg6 : g6 ≠ 0) (hs6 : inv6 s6 = .ok resp6) (hoid6 : respSuccessOid resp6 = some oid6) :
    (ipsubnetLoop p g rng inv [s] 0).1 = .ok oid (some (ipv4GatewayLong s p g)) ∧
      (ip6subnetLoop p6 g6 rng6 inv6 [s6] 0).1 = .ok oid6 (some (ip6Gateway s6 p6 g6)) :=
  ⟨ipsubnetLoop_first_success p g rng inv s [] resp oid hs hoid hg,
   ip6subnetLoop_first_success p6 g6 rng6 inv6 s6 [] resp6 oid6 hs6 hoid6 hg6⟩

/-- Witness for C2_no_range_check at the out-of-range offsets of the claim:
offset 256 on the /24 at 10.0.0.0 (IPv4) and offset 300 on a /120 at 0
(IPv6) both succeed, recording out-of-block gateways. -/
theorem C2_no_range_check_witness :
    (ipsubnetLoop 24 256 (fun _ => 0)
        (fun _ => .ok ⟨200, [⟨some "4242", none⟩]⟩) [167772160] 0).1 =
      .ok "4242" (some (ipv4GatewayLong 167772160 24 256)) ∧
    (ip6subnetLoop 120 300 (fun _ => 0)
        (fun _ => .ok ⟨201, [⟨some "77", none⟩]⟩) [0] 0).1 =
      .ok "77" (some (ip6Gateway 0 120 300)) :=
  C2_no_range_check 167772160 24 256 (fun _ => 0)
    (fun _ => .ok ⟨200, [⟨some "4242", none⟩]⟩) ⟨200, [⟨some "4242", none⟩]⟩ "4242"
    0 120 300 (fun _ => 0)
    (fun _ => .ok ⟨201, [⟨some "77", none⟩]⟩) ⟨201, [⟨some "77", none⟩]⟩ "77"
    (by decide) rfl rfl (by decide) rfl rfl

/-- Claim C3 (confirmed): when the inventory answers every reservation
attempt with a conflict (a response that is not an unambiguous success),
both the IPv4 subnet engine and the VLAN engine issue exactly one
reservation call per candidate — k calls for a candidate list of length k —
and then return the terminal exhaustion diagnostic. -/
theorem C3_exhaustion (p : Nat) (g : Int) (rng : Nat → Nat)
    (inv : Nat → Except String ApiResponse) (cands : List Nat)
    (invV : String → Except String ApiResponse) (vids : List String)
    (hc : ∀ a ∈ cands, attemptConflicts (inv a))
    (hv : ∀ v ∈ vids, attemptConflicts (invV v)) :
    (ipsubnetLoop p g rng inv cands 0).1 =
        .err "Unable to create IP subnet: unable to find a suitable prefix" ∧
      ((ipsubnetLoop p g rng inv cands 0).2.filter Ev.isReserve).length = cands.length ∧
      (vlanLoop invV vids).1 = .err "Unable to create vlan" ∧
      ((vlanLoop invV vids).2.filter Ev.isReserve).length = vids.length := by
  obtain ⟨h1, h2⟩ := ipsubnetLoop_exhaust p g rng inv cands 0 hc
  obtain ⟨h3, h4⟩ := vlanLoop_exhaust invV vids hv
  exact ⟨h1, h2, h3, h4⟩

/-- Witness for C3_exhaustion: two always-conflicting IPv4 candidates yield
two reservation calls then exhaustion; one conflicting VLAN candidate
yields one call then exhaustion. -/
theorem C3_exhaustion_witness :
    (ipsubnetLoop 24 0 (fun _ => 0) (fun _ => .ok ⟨409, []⟩) [167772160, 167772416] 0).1 =
        .err "Unable to create IP subnet: unable to find a suitable prefix" ∧
      ((ipsubnetLoop 24 0 (fun _ => 0) (fun _ => .ok ⟨409, []⟩)
          [167772160, 167772416] 0).2.filter Ev.isReserve).length =
        ([167772160, 167772416] : List Nat).length ∧
      (vlanLoop (fun _ => .ok ⟨409, []⟩) ["7"]).1 = .err "Unable to create vlan" ∧
      ((vlanLoop (fun _ => .ok ⟨409, []⟩) ["7"]).2.filter Ev.isReserve).length =
        (["7"] : List String).length :=
  C3_exhaustion 24 0 (fun _ => 0) (fun _ => .ok ⟨409, []⟩) [167772160, 167772416]
    (fun _ => .ok ⟨409, []⟩) ["7"]
    (fun _ _ => ⟨⟨409, []⟩, rfl, rfl⟩) (fun _ _ => ⟨⟨409, []⟩, rfl, rfl⟩)

/-- Claim C4 (code bug): with an explicit requested identifier
(request_id = 42 > 0) the VLAN create is meant to run the reservation loop
on the singleton candidate list; instead it panics on the string type
assertion applied to the int-typed request_id attribute, before any
inventory call (the event trace is empty), for every finder and every
inventory. -/
theorem C4_explicit_vlan_id_panics :
    resourcevlanCreate 42 (.ok []) (fun _ => .ok ⟨200, [⟨some "1", none⟩]⟩) =
        (.panicked "interface conversion: interface holds int, not string", []) ∧
      ∀ (finder : Except String (List String)) (inv : String → Except String ApiResponse),
        resourcevlanCreate 42 finder inv =
          (.panicked "interface conversion: interface holds int, not string", []) :=
  ⟨rfl, fun _ _ => rfl⟩

/-- Claim C5 (confirmed): when a reservation attempt fails with a
transport-level error after a prefix of conflicting candidates, both the
IPv4 subnet engine and the VLAN engine propagate that error immediately:
the loop result is exactly that error and the number of reservation calls
is the prefix length plus one, so no later candidate is ever attempted. -/
theorem C5_transport_abort (p : Nat) (g : Int) (rng : Nat → Nat)
    (inv : Nat → Except String ApiResponse) (pre post : List Nat) (c : Nat) (e : String)
    (invV : String → Except String ApiResponse) (preV postV : List String) (cV eV : String)
    (hc : ∀ x ∈ pre, attemptConflicts (inv x)) (hce : inv c = .error e)
    (hcV : ∀ x ∈ preV, attemptConflicts (invV x)) (hceV : invV cV = .error eV) :
    (ipsubnetLoop p g rng inv (pre ++ c :: post) 0).1 = .err e ∧
      ((ipsubnetLoop p g rng inv (pre ++ c :: post) 0).2.filter Ev.isReserve).length =
        pre.length + 1 ∧
      (vlanLoop invV (preV ++ cV :: postV)).1 = .err eV ∧
      ((vlanLoop invV (preV ++ cV :: postV)).2.filter Ev.isReserve).length =
        preV.length + 1 := by
  obtain ⟨h1, h2⟩ := ipsubnetLoop_transport p g rng inv c e post hce pre 0 hc
  obtain ⟨h3, h4⟩ := vlanLoop_transport invV cV eV postV hceV preV hcV
  exact ⟨h1, h2, h3, h4⟩

/-- Witness for C5_transport_abort: one conflicting candidate, then a
candidate whose call fails at transport level, then one untried candidate:
the engines stop after two calls with the transport error. -/
theorem C5_transport_abort_witness :
    (ipsubnetLoop 24 0 (fun _ => 0)
        (fun a => if a == 7 then .ok ⟨409, []⟩ else .error "connection refused")
        ([7] ++ 8 :: [9]) 0).1 = .err "connection refused" ∧
      ((ipsubnetLoop 24 0 (fun _ => 0)
          (fun a => if a == 7 then .ok ⟨409, []⟩ else .error "connection refused")
          ([7] ++ 8 :: [9]) 0).2.filter Ev.isReserve).length = ([7] : List Nat).length + 1 ∧
      (vlanLoop (fun v => if v == "3" then .ok ⟨409, []⟩ else .error "connection reset")
          (["3"] ++ "4" :: ["5"])).1 = .err "connection reset" ∧
      ((vlanLoop (fun v => if v == "3" then .ok ⟨409, []⟩ else .error "connection reset")
          (["3"] ++ "4" :: ["5"])).2.filter Ev.isReserve).length =
        (["3"] : List String).length + 1 :=
  C5_transport_abort 24 0 (fun _ => 0)
    (fun a => if a == 7 then .ok ⟨409, []⟩ else .error "connection refused")
    [7] [9] 8 "connection refused"
    (fun v => if v == "3" then .ok ⟨409, []⟩ else .error "connection reset")
    ["3"] ["5"] "4" "connection reset"
    (by intro x hx; simp at hx; subst hx; exact ⟨⟨409, []⟩, rfl, rfl⟩) rfl
    (by intro x hx; simp at hx; subst hx; exact ⟨⟨409, []⟩, rfl, rfl⟩) rfl

/-- Claim C6 (confirmed): for every IPv6 subnet creation with a negative
gateway_offset g, the gateway is computed in arbitrary-precision integer
arithmetic as blockStart + 2^(128 - prefix_size) - abs(g), anchored to the
block end, with no reduction or truncation. -/
theorem C6_ip6_gateway_negative_offset (s : Int) (p : Nat) (g : Int) (hg : g < 0) :
    ip6Gateway s p g = s + 2 ^ (128 - p) - (g.natAbs : Int) := by
  have h0 : ¬ 0 < g := by omega
  have habs : absInt g = -g := if_pos hg
  have hna : ((g.natAbs : Nat) : Int) = -g := by omega
  unfold ip6Gateway
  rw [if_neg h0, habs, prefix6lengthtosize, hna]

/-- Witness for C6_ip6_gateway_negative_offset at block start 0, prefix 64,
offset -1: the gateway is 2^64 - 1, the last address of the block. -/
theorem C6_ip6_gateway_negative_offset_witness :
    ip6Gateway 0 64 (-1) = 0 + 2 ^ (128 - 64) - (((-1 : Int).natAbs : Nat) : Int) :=
  C6_ip6_gateway_negative_offset 0 64 (-1) (by decide)

/-- Claim C7 (confirmed): for both the IPv4 and the IPv6 subnet engine, the
loop reports success with entity id oid exactly when, after a prefix of
conflicting attempts, one reservation call unambiguously succeeded — the
inventory returned status 200 or 201 with a body whose first object carries
ret_oid = oid — and the reported id is exactly that oid. -/
theorem C7_success_iff (p : Nat) (g : Int) (rng : Nat → Nat)
    (inv : Nat → Except String ApiResponse) (cands : List Nat)
    (p6 : Nat) (g6 : Int) (rng6 : Nat → Nat)
    (inv6 : Int → Except String ApiResponse) (cands6 : List Int) (oid : String) :
    ((ipsubnetLoop p g rng inv cands 0).1.successOid = some oid ↔
        ∃ pre a post, cands = pre ++ a :: post ∧
          (∀ x ∈ pre, attemptConflicts (inv x)) ∧ reserveSucceedsWith (inv a) oid) ∧
      ((ip6subnetLoop p6 g6 rng6 inv6 cands6 0).1.successOid = some oid ↔
        ∃ pre a post, cands6 = pre ++ a :: post ∧
          (∀ x ∈ pre, attemptConflicts (inv6 x)) ∧ reserveSucceedsWith (inv6 a) oid) :=
  ⟨ipsubnetLoop_success_iff p g rng inv cands 0 oid,
   ip6subnetLoop_success_iff p6 g6 rng6 inv6 cands6 0 oid⟩

/-- Claim C8 (code bug): the VLAN update is meant to mutate the name by a
single inventory edit call; instead every invocation panics on the string
type assertion applied to the int-typed vlan_id attribute while building
the request parameters, before the edit call is issued (the event trace is
empty). -/
theorem C8_vlan_update_panics :
    resourcevlanUpdate 100 (.ok ⟨200, [⟨some "7", none⟩]⟩) =
        (.panicked "interface conversion: interface holds int, not string", []) ∧
      ∀ (vid : Int) (inv : Except String ApiResponse),
        resourcevlanUpdate vid inv =
          (.panicked "interface conversion: interface holds int, not string", []) :=
  ⟨rfl, fun _ _ => rfl⟩

/-- Claim C9, counterexample: a VLAN creation with one searched candidate
that conflicts issues its reservation call with no preceding randomized
delay — the trace holds a search event and a reservation event and no sleep
event at all. -/
theorem C9_counterexample :
    (resourcevlanCreate 0 (.ok ["1"]) (fun _ => .ok ⟨409, []⟩)).2 =
        [.findFreeCall, .reserveCall "1"] ∧
      ((resourcevlanCreate 0 (.ok ["1"]) (fun _ => .ok ⟨409, []⟩)).2.filter Ev.isReserve) =
        [.reserveCall "1"] ∧
      ((resourcevlanCreate 0 (.ok ["1"]) (fun _ => .ok ⟨409, []⟩)).2.filter Ev.isSleep) =
        [] :=
  ⟨rfl, rfl, rfl⟩

/-- Claim C9 (amended): in IPv4 and IPv6 subnet allocation every
reservation call is immediately preceded by a randomized delay of less than
1000 milliseconds (the trace is an alternation of delay/reserve pairs),
while the VLAN flat-space variant performs no delay at all. -/
theorem C9_delay_only_for_subnets (p : Nat) (g : Int) (rng : Nat → Nat)
    (inv : Nat → Except String ApiResponse) (cands : List Nat)
    (p6 : Nat) (g6 : Int) (rng6 : Nat → Nat)
    (inv6 : Int → Except String ApiResponse) (cands6 : List Int)
    (requestId : Int) (finder : Except String (List String))
    (invV : String → Except String ApiResponse) :
    (∃ prs : List (Nat × String),
        (ipsubnetLoop p g rng inv cands 0).2 = delayedPairs prs ∧ ∀ q ∈ prs, q.1 < 1000) ∧
      (∃ prs : List (Nat × String),
        (ip6subnetLoop p6 g6 rng6 inv6 cands6 0).2 = delayedPairs prs ∧
          ∀ q ∈ prs, q.1 < 1000) ∧
      ((resourcevlanCreate requestId finder invV).2.filter Ev.isSleep) = [] :=
  ⟨ipsubnetLoop_trace_shape p g rng inv cands 0,
   ip6subnetLoop_trace_shape p6 g6 rng6 inv6 cands6 0,
   resourcevlanCreate_no_sleep requestId finder invV⟩

/-- Claim C10 (confirmed): for both IPv4 and IPv6 subnet creation, a
request with an empty parent block name and terminal = true fails with an
error right after the space lookup, before any candidate search or
reservation call (the event trace is empty), whatever the block lookup,
finder, random generator and inventory would have answered. -/
theorem C10_terminal_block_rejected (p : Nat) (g : Int) (site : String)
    (bl : Except String String) (f : Except String (List Nat)) (rng : Nat → Nat)
    (inv : Nat → Except String ApiResponse)
    (p6 : Nat) (g6 : Int) (site6 : String) (bl6 : Except String String)
    (f6 : Except String (List Int)) (rng6 : Nat → Nat)
    (inv6 : Int → Except String ApiResponse) :
    resourceipsubnetCreate "" true p g (.ok site) bl f rng inv =
        (.err "Cannot create a terminal IP block subnet", []) ∧
      resourceip6subnetCreate "" true p6 g6 (.ok site6) bl6 f6 rng6 inv6 =
        (.err "Cannot create a terminal IPv6 block subnet", []) :=
  ⟨rfl, rfl⟩
